import Mathlib

/-!
Verification of the snippet-image rendering pipeline of this repository.

The repository has two call sites of the renderer:
* `src/scripts/render-snippet.js` — the standalone CLI variant (namespace
  `RenderScript` below), and
* `src/main.js` — the video-overlay variant (namespace `MainApp` below).

JavaScript numbers are modelled as exact rationals (`ℚ`); strings as Lean
`String`/`List Char`.  Stateful pipeline steps (browser session, directory
creation, screenshot) are modelled by explicit state passing; fallible steps
return `Except`.
-/

/-- A measured on-surface bounding rectangle (result of
`frame.getBoundingClientRect()`), with rational coordinates. -/
structure Rect where
  x : ℚ
  y : ℚ
  width : ℚ
  height : ℚ

/-- A whole-pixel clip rectangle as passed to the capture step. -/
structure Clip where
  x : ℤ
  y : ℤ
  width : ℤ
  height : ℤ
deriving DecidableEq

/-- The options record passed to the rasterization collaborator's
screenshot call (puppeteer `page.screenshot`): an optional clip rectangle,
the `fullPage` flag and the `omitBackground` flag. -/
structure ScreenshotOptions where
  clip : Option Clip
  fullPage : Bool
  omitBackground : Bool
deriving DecidableEq

/-- Modelled from the spec: the headless rendering collaborator's capture
step (`session.capture`).  When the screenshot options carry a clip
rectangle, exactly that rectangle is rasterized; with no clip and
`fullPage := false`, the full viewport surface is rasterized. -/
def capturedRegion (viewportWidth viewportHeight : ℤ) (o : ScreenshotOptions) : Clip :=
  match o.clip with
  | some c => c
  | none => { x := 0, y := 0, width := viewportWidth, height := viewportHeight }

/-- Result of evaluating a JavaScript expression of number type: either a
finite value (modelled exactly as a rational) or one of the non-finite
numbers `NaN`, `Infinity`, `-Infinity`. -/
inductive JsNumber where
  | finite (q : ℚ)
  | nan
  | posInf
  | negInf
deriving DecidableEq

namespace RenderScript

/-- The apostrophe character, written by code point. -/
def squote : String := String.singleton (Char.ofNat 39)

/-- The double-quote character, written by code point. -/
def dquote : Char := Char.ofNat 34

/-- `DEFAULTS` from src/scripts/render-snippet.js lines 7-17.  Numeric
fields are rationals; the font stack string is assembled around explicit
apostrophe characters. -/
structure DefaultsRec where
  lang : String
  theme : String
  width : ℚ
  padding : ℚ
  font : String
  title : String
  output : String
  background : String
  scale : ℚ

/-- The concrete defaults record of the standalone CLI. -/
def DEFAULTS : DefaultsRec :=
  { lang := "javascript"
    theme := "nord"
    width := 960
    padding := 64
    font := "ui-monospace, SFMono-Regular, Menlo, Monaco, Consolas, " ++ squote ++
      "Liberation Mono" ++ squote ++ ", " ++ squote ++ "Courier New" ++ squote ++ ", monospace"
    title := "snippet"
    output := "snippet.png"
    background := "radial-gradient(1200px circle at 10% 20%, #1f2937 0%, #0f172a 45%, #020617 100%)"
    scale := 2 }

/-- `toNumber(value, fallback)` from src/scripts/render-snippet.js lines
79-83: an absent option yields the fallback; otherwise the value is
converted by JavaScript `Number(...)` (whose outcome is the `JsNumber`
argument here) and kept only when finite (`Number.isFinite`). -/
def toNumber (value : Option JsNumber) (fallback : ℚ) : ℚ :=
  match value with
  | none => fallback
  | some (JsNumber.finite num) => num
  | some _ => fallback

/-- The destructured options object of `estimateHeight` in
src/scripts/render-snippet.js line 85. -/
structure HeightParams where
  lines : ℚ
  fontSize : ℚ
  lineHeight : ℚ
  chromeHeight : ℚ
  codePadding : ℚ
  canvasPadding : ℚ

/-- `estimateHeight` from src/scripts/render-snippet.js lines 85-88:
`Math.ceil(lines * lineHeight + codePadding * 2 + chromeHeight + canvasPadding * 2 + 40)`. -/
def estimateHeight (p : HeightParams) : ℤ :=
  let codeHeight := p.lines * p.lineHeight + p.codePadding * 2
  ⌈codeHeight + p.chromeHeight + p.canvasPadding * 2 + 40⌉

/-- `code.split("\x5cn")` modelled at the character-list level: JavaScript
`String.prototype.split` with the single-character separator newline.
The result on `[]` is `[[]]`, matching `"".split("\x5cn") = [""]`. -/
def splitNl (l : List Char) : List (List Char) :=
  match l with
  | [] => [[]]
  | c :: t =>
    match splitNl t with
    | [] => [[]]
    | h :: r => if c = '\n' then [] :: h :: r else (c :: h) :: r

/-- `const lineCount = code.split("\x5cn").length` from
src/scripts/render-snippet.js line 263. -/
def lineCount (code : String) : ℕ :=
  (splitNl code.data).length

/-- The `estimateHeight` call of src/scripts/render-snippet.js lines
264-272, with the line count abstracted: `lineHeight = fontSize * 1.6`,
`chromeHeight = 40`, `codePadding = 24`, `canvasPadding = padding`. -/
def estimateFor (lines fontSize padding : ℚ) : ℤ :=
  estimateHeight
    { lines := lines
      fontSize := fontSize
      lineHeight := fontSize * 1.6
      chromeHeight := 40
      codePadding := 24
      canvasPadding := padding }

/-- The estimated viewport height computed by `main` in
src/scripts/render-snippet.js lines 263-272 for a given code string,
font size and canvas padding. -/
def estimatedHeight (code : String) (fontSize padding : ℚ) : ℤ :=
  estimateFor (lineCount code) fontSize padding

/-- Modelled from the spec: the `LayoutEstimate` formula of the data model,
`canvasHeightPx = codeBlockHeightPx + chromeBarHeightPx + 2 * canvasPadding + fixedMargin`
with `lineHeightPx = fontSizePx * 1.6`, `codeBlockHeightPx = lineCount * lineHeightPx
+ 2 * innerPadding`, `innerPadding = 24`, `chromeBarHeightPx = 40` and a fixed
margin of `40`, rounded up to an integer. -/
def specCanvasHeightPx (lineCnt : ℕ) (fontSizePx canvasPadding : ℚ) : ℤ :=
  let lineHeightPx := fontSizePx * 1.6
  let innerPadding : ℚ := 24
  let chromeBarHeightPx : ℚ := 40
  let fixedMargin : ℚ := 40
  let codeBlockHeightPx := (lineCnt : ℚ) * lineHeightPx + 2 * innerPadding
  ⌈codeBlockHeightPx + chromeBarHeightPx + 2 * canvasPadding + fixedMargin⌉

theorem splitNl_ne_nil (l : List Char) : splitNl l ≠ [] := by
  cases l with
  | nil => simp [splitNl]
  | cons c t =>
    simp only [splitNl]
    cases splitNl t with
    | nil => simp
    | cons h r =>
      by_cases hc : c = '\n' <;> simp [hc]

theorem splitNl_length (l : List Char) : (splitNl l).length = l.count '\n' + 1 := by
  induction l with
  | nil => rfl
  | cons c t ih =>
    rcases hs : splitNl t with _ | ⟨h, r⟩
    · exact absurd hs (splitNl_ne_nil t)
    · rw [hs] at ih
      by_cases hc : c = '\n'
      · subst hc
        simp only [List.length_cons] at ih
        simp [splitNl, hs, List.count_cons]
        omega
      · simp only [splitNl, hs, if_neg hc, List.length_cons, List.count_cons]
        simp only [List.length_cons] at ih
        simp [ih, hc]

/-- JavaScript `String.prototype.replaceAll` with a single-character
pattern, at the character-list level: every occurrence of `c` is replaced
by `r`, left to right, with no rescanning of replaced text. -/
def rep (c : Char) (r : List Char) : List Char → List Char
  | [] => []
  | ch :: t => (if ch = c then r else [ch]) ++ rep c r t

/-- A single-character-pattern `replaceAll` on strings, wrapping `rep`. -/
def replaceAllCh (c : Char) (r : String) (s : String) : String :=
  ⟨rep c r.data s.data⟩

/-- `escapeHtml` from src/scripts/render-snippet.js lines 90-97: the chain
of five `replaceAll` calls, ampersand first, then the angle brackets, the
double quote and the apostrophe. -/
def escapeHtml (value : String) : String :=
  replaceAllCh (Char.ofNat 39) "&#39;"
    (replaceAllCh dquote "&quot;"
      (replaceAllCh '>' "&gt;"
        (replaceAllCh '<' "&lt;"
          (replaceAllCh '&' "&amp;" value))))

/-- The same five-stage replacement chain at the character-list level. -/
def escChain (l : List Char) : List Char :=
  rep (Char.ofNat 39) "&#39;".data
    (rep dquote "&quot;".data
      (rep '>' "&gt;".data
        (rep '<' "&lt;".data
          (rep '&' "&amp;".data l))))

/-- Modelled from the spec: the entity for one character — each of the
five markup-special characters maps to its entity, every other character
to itself. -/
def entityOf (c : Char) : String :=
  if c = '&' then "&amp;"
  else if c = '<' then "&lt;"
  else if c = '>' then "&gt;"
  else if c = dquote then "&quot;"
  else if c = Char.ofNat 39 then "&#39;"
  else String.singleton c

/-- Modelled from the spec: escaping a character list by replacing each
occurrence of a markup-special character with its entity. -/
def escapeChars : List Char → List Char
  | [] => []
  | c :: t => (entityOf c).data ++ escapeChars t

theorem rep_append (c : Char) (r a b : List Char) :
    rep c r (a ++ b) = rep c r a ++ rep c r b := by
  induction a with
  | nil => rfl
  | cons x t ih => simp [rep, ih]

theorem escChain_append (a b : List Char) :
    escChain (a ++ b) = escChain a ++ escChain b := by
  simp [escChain, rep_append]

theorem escChain_single (c : Char) : escChain [c] = (entityOf c).data := by
  by_cases h1 : c = '&'
  · subst h1; decide
  · by_cases h2 : c = '<'
    · subst h2; decide
    · by_cases h3 : c = '>'
      · subst h3; decide
      · by_cases h4 : c = dquote
        · subst h4; decide
        · by_cases h5 : c = Char.ofNat 39
          · subst h5; decide
          · simp [escChain, rep, entityOf, h1, h2, h3, h4, h5, String.singleton]

theorem escChain_eq_escapeChars (l : List Char) : escChain l = escapeChars l := by
  induction l with
  | nil => rfl
  | cons c t ih =>
    have hsplit : c :: t = [c] ++ t := rfl
    rw [hsplit, escChain_append, escChain_single, ih]
    rfl

theorem escapeHtml_eq_escapeChars (s : String) :
    escapeHtml s = ⟨escapeChars s.data⟩ := by
  have h : escapeHtml s = ⟨escChain s.data⟩ := rfl
  rw [h, escChain_eq_escapeChars]

/-- Static template text of `buildHtml` (src/scripts/render-snippet.js
lines 109-207) up to the `font-family` insertion. -/
def partA : String := "<!doctype html>
<html lang=\"en\">
<head>
  <meta charset=\"utf-8\" />
  <meta name=\"viewport\" content=\"width=device-width, initial-scale=1\" />
  <title>snippet</title>
  <style>
    :root \x7b
      --frame-radius: 16px;
      --frame-bg: #0b1120;
      --chrome-bg: linear-gradient(90deg, #0f172a 0%, #111827 100%);
      --chrome-border: rgba(148, 163, 184, 0.16);
      --shadow: 0 30px 60px rgba(2, 6, 23, 0.6);
    \x7d
    * \x7b box-sizing: border-box; \x7d
    body \x7b
      margin: 0;
      min-height: 100vh;
      display: flex;
      align-items: center;
      justify-content: center;
      background: #0b1120;
      font-family: "

/-- Template text between the `font-family` and `padding` insertions. -/
def partB : String := ";
    \x7d
    .canvas \x7b
      display: inline-block;
      padding: "

/-- Template text between the `padding` and `background` insertions. -/
def partC : String := "px;
      background: "

/-- Template text between the `background` and frame `width` insertions. -/
def partD : String := ";
      border-radius: 28px;
    \x7d
    .frame \x7b
      width: "

/-- Template text between the frame `width` and `font-size` insertions. -/
def partE : String := "px;
      background: var(--frame-bg);
      border-radius: var(--frame-radius);
      box-shadow: var(--shadow);
      overflow: hidden;
      border: 1px solid rgba(148, 163, 184, 0.18);
    \x7d
    .chrome \x7b
      height: 40px;
      display: flex;
      align-items: center;
      padding: 0 16px;
      gap: 12px;
      background: var(--chrome-bg);
      border-bottom: 1px solid var(--chrome-border);
      color: #cbd5f5;
      font-size: 12px;
      letter-spacing: 0.06em;
      text-transform: uppercase;
    \x7d
    .dots \x7b display: flex; gap: 8px; \x7d
    .dot \x7b width: 10px; height: 10px; border-radius: 999px; \x7d
    .dot.red \x7b background: #f87171; \x7d
    .dot.yellow \x7b background: #facc15; \x7d
    .dot.green \x7b background: #4ade80; \x7d
    .title \x7b opacity: 0.7; \x7d
    .code \x7b
      padding: 24px;
      font-size: "

/-- Template text between the `font-size` and escaped-title insertions. -/
def partF : String := "px;
      line-height: 1.6;
      color: #e2e8f0;
    \x7d
    .code pre,
    .code code \x7b
      margin: 0;
      white-space: pre;
      font-family: inherit;
    \x7d
    .code pre.shiki \x7b
      background: transparent !important;
      padding: 0 !important;
    \x7d
    .theme-label \x7b
      margin-left: auto;
      opacity: 0.4;
      font-size: 11px;
    \x7d
  </style>
</head>
<body>
  <div class=\"canvas\">
    <div class=\"frame\">
      <div class=\"chrome\">
        <div class=\"dots\">
          <span class=\"dot red\"></span>
          <span class=\"dot yellow\"></span>
          <span class=\"dot green\"></span>
        </div>
        <div class=\"title\">"

/-- Template text between the escaped-title and escaped-theme insertions. -/
def partG : String := "</div>
        <div class=\"theme-label\">"

/-- Template text between the escaped-theme and `codeHtml` insertions. -/
def partH : String := "</div>
      </div>
      <div class=\"code\">
        "

/-- Template text after the `codeHtml` insertion. -/
def partI : String := "
      </div>
    </div>
  </div>
</body>
</html>"

/-- `buildHtml` from src/scripts/render-snippet.js lines 99-208: the
template literal with its eight interpolations.  The numeric parameters
are taken as integers (their stringification then agrees with the
JavaScript number-to-string conversion); `title` and `themeName` pass
through `escapeHtml`, `codeHtml` is embedded verbatim. -/
def buildHtml (codeHtml : String) (width padding : ℤ) (background font title themeName : String)
    (fontSize : ℤ) : String :=
  partA ++ font ++ partB ++ toString padding ++ partC ++ background ++ partD ++
    toString width ++ partE ++ toString fontSize ++ partF ++ escapeHtml title ++ partG ++
    escapeHtml themeName ++ partH ++ codeHtml ++ partI

end RenderScript

namespace MainApp

/-- `DEFAULTS` from src/main.js lines 12-23 (numeric fields; the font
stack and background strings are as in `RenderScript.DEFAULTS`). -/
structure DefaultsRec where
  theme : String
  width : ℤ
  height : ℤ
  padding : ℤ
  scale : ℤ
  fontSize : ℤ
  videoDuration : ℤ
  bRollPath : String

/-- The concrete defaults record of the video-overlay variant: Instagram
Reel geometry 1080 by 1920. -/
def DEFAULTS : DefaultsRec :=
  { theme := "nord"
    width := 1080
    height := 1920
    padding := 80
    scale := 2
    fontSize := 24
    videoDuration := 10
    bRollPath := "./bRoll.mov" }

/-- Static template text of the overlay `buildHtml` (src/main.js lines
196-317) up to the body `width` insertion. -/
def partA : String := "<!doctype html>
<html lang=\"en\">
<head>
  <meta charset=\"utf-8\" />
  <meta name=\"viewport\" content=\"width=device-width, initial-scale=1\" />
  <title>snippet</title>
  <style>
    :root \x7b
      --frame-radius: 16px;
      --frame-bg: #0b1120;
      --chrome-bg: linear-gradient(90deg, #0f172a 0%, #111827 100%);
      --chrome-border: rgba(148, 163, 184, 0.16);
      --shadow: 0 30px 60px rgba(2, 6, 23, 0.6);
    \x7d
    * \x7b box-sizing: border-box; \x7d
    body \x7b
      margin: 0;
      width: "

/-- Template text between the body `width` and `height` insertions. -/
def partB : String := "px;
      height: "

/-- Template text between the body `height` and `font-family` insertions. -/
def partC : String := "px;
      display: flex;
      align-items: center;
      justify-content: center;
      flex-direction: column;
      gap: 60px;
      background: transparent;
      font-family: "

/-- Template text between the `font-family` and body `padding` insertions. -/
def partD : String := ";
      padding: "

/-- Template text between the body `padding` and frame `width` insertions
(the frame width interpolation is the expression `width - padding * 2`). -/
def partE : String := "px;
    \x7d
    .header \x7b
      text-align: center;
      color: #e2e8f0;
      padding: 30px 60px;
    \x7d
    .header h1 \x7b
      font-size: 72px;
      font-weight: 700;
      margin: 0 0 24px 0;
      letter-spacing: -0.02em;
      text-shadow:\x20
        -2px -2px 0 #000,
        2px -2px 0 #000,
        -2px 2px 0 #000,
        2px 2px 0 #000,
        0 0 20px rgba(0, 0, 0, 0.5);
    \x7d
    .level \x7b
      font-size: 42px;
      font-weight: 600;
      color: #818cf8;
      text-transform: uppercase;
      letter-spacing: 0.1em;
      text-shadow:\x20
        -1.5px -1.5px 0 #000,
        1.5px -1.5px 0 #000,
        -1.5px 1.5px 0 #000,
        1.5px 1.5px 0 #000,
        0 0 15px rgba(0, 0, 0, 0.5);
    \x7d
    .frame \x7b
      width: "

/-- Template text between the frame `width` and `font-size` insertions. -/
def partF : String := "px;
      background: var(--frame-bg);
      border-radius: var(--frame-radius);
      box-shadow: var(--shadow);
      overflow: hidden;
      border: 1px solid rgba(148, 163, 184, 0.18);
      backdrop-filter: blur(10px);
    \x7d
    .chrome \x7b
      height: 50px;
      display: flex;
      align-items: center;
      padding: 0 20px;
      gap: 16px;
      background: var(--chrome-bg);
      border-bottom: 1px solid var(--chrome-border);
      color: #cbd5f5;
      font-size: 14px;
      letter-spacing: 0.06em;
      text-transform: uppercase;
    \x7d
    .dots \x7b display: flex; gap: 10px; \x7d
    .dot \x7b width: 14px; height: 14px; border-radius: 999px; \x7d
    .dot.red \x7b background: #f87171; \x7d
    .dot.yellow \x7b background: #facc15; \x7d
    .dot.green \x7b background: #4ade80; \x7d
    .code \x7b
      padding: 40px;
      font-size: "

/-- Template text between the `font-size` and `difficulty` insertions,
ending in the unescaped heading label `Level: `. -/
def partG : String := "px;
      line-height: 1.6;
      color: #e2e8f0;
    \x7d
    .code pre,
    .code code \x7b
      margin: 0;
      white-space: pre;
      font-family: inherit;
    \x7d
    .code pre.shiki \x7b
      background: transparent !important;
      padding: 0 !important;
    \x7d
  </style>
</head>
<body>
  <div class=\"header\">
    <h1>What Is The Output?</h1>
    <div class=\"level\">Level: "

/-- Template text between the `difficulty` and `codeHtml` insertions. -/
def partH : String := "</div>
  </div>
  <div class=\"frame\">
    <div class=\"chrome\">
      <div class=\"dots\">
        <span class=\"dot red\"></span>
        <span class=\"dot yellow\"></span>
        <span class=\"dot green\"></span>
      </div>
    </div>
    <div class=\"code\">
      "

/-- Template text after the `codeHtml` insertion. -/
def partI : String := "
    </div>
  </div>
</body>
</html>"

/-- The composed overlay document before the `difficulty` insertion point. -/
def overlayBefore (width height padding : ℤ) (background font : String) (fontSize : ℤ) : String :=
  partA ++ toString width ++ partB ++ toString height ++ partC ++ font ++ partD ++
    toString padding ++ partE ++ toString (width - padding * 2) ++ partF ++
    toString fontSize ++ partG

/-- The composed overlay document after the `difficulty` insertion point. -/
def overlayAfter (codeHtml : String) : String :=
  partH ++ codeHtml ++ partI

/-- `buildHtml` from src/main.js lines 195-318: the overlay template
literal with its interpolations.  The `difficulty` heading text and the
highlighter markup `codeHtml` are both embedded verbatim — this file
defines no escaping function and calls none.  (The `background` parameter
is received but never interpolated by the source template: the body
background is the literal `transparent`.) -/
def buildHtml (codeHtml : String) (width height padding : ℤ) (background font : String)
    (fontSize : ℤ) (difficulty : String) : String :=
  overlayBefore width height padding background font fontSize ++ difficulty ++
    overlayAfter codeHtml

/-- The screenshot options of `renderSnippet` in src/main.js lines
185-189: `page.screenshot(\x7b path: outputPath, fullPage: false,
omitBackground: true \x7d)` — no clip rectangle is passed. -/
def rendererScreenshotOptions : ScreenshotOptions :=
  { clip := none, fullPage := false, omitBackground := true }

end MainApp

namespace RenderScript

/-- `resolveTheme(requested, fallback)` from src/scripts/render-snippet.js
lines 210-215, with the supported identifier set (the keys of the
highlighter's bundled themes, an external collaborator) passed as a
parameter.  `available[0] || fallback` yields the fallback when the set is
empty or its first entry is the empty string (falsy). -/
def resolveTheme (available : List String) (requested fallback : String) : String :=
  if available.contains requested then requested
  else if available.contains fallback then fallback
  else
    match available with
    | [] => fallback
    | h :: _ => if h = "" then fallback else h

/-- The alias map of `resolveLanguage` (src/scripts/render-snippet.js
lines 219-225). -/
def aliases : List (String × String) :=
  [("js", "javascript"), ("ts", "typescript"), ("py", "python"),
   ("rb", "ruby"), ("sh", "bash")]

/-- `const normalized = aliases.get(requested) || requested` from
src/scripts/render-snippet.js line 226. -/
def normalized (requested : String) : String :=
  (aliases.lookup requested).getD requested

/-- `resolveLanguage(requested, fallback)` from src/scripts/render-snippet.js
lines 217-230, with the supported identifier set passed as a parameter. -/
def resolveLanguage (available : List String) (requested fallback : String) : String :=
  if available.contains (normalized requested) then normalized requested
  else if available.contains fallback then fallback
  else
    match available with
    | [] => fallback
    | h :: _ => if h = "" then fallback else h

/-- The guard of the theme warning in src/scripts/render-snippet.js lines
253-255: `if (requestedTheme && theme !== requestedTheme)`.  JavaScript
string truthiness is non-emptiness. -/
def themeWarning (requestedTheme theme : String) : Bool :=
  (requestedTheme != "") && (theme != requestedTheme)

/-- The guard of the language warning in src/scripts/render-snippet.js
lines 256-258: `if (requestedLang && lang !== requestedLang)`. -/
def languageWarning (requestedLang lang : String) : Bool :=
  (requestedLang != "") && (lang != requestedLang)

/-- Modelled from the spec: a language resolution "falls back" exactly
when the requested identifier, after alias expansion, is not in the
supported set (so neither the direct match nor the alias match was used). -/
def specLanguageFellBack (available : List String) (requested : String) : Bool :=
  !(available.contains (normalized requested))

/-- The error kinds the spec distinguishes for the standalone pipeline. -/
inductive ErrorKind where
  | inputFailure
  | renderFailure
deriving DecidableEq

/-- The environment of one `main` invocation of
src/scripts/render-snippet.js: the code sources that are available and
the measurement the rendering surface will report.  `inputOpt` and
`positional` carry the contents of readable files named by `--input` and
by the first positional argument. -/
structure Env where
  inputOpt : Option String
  positional : List String
  stdinIsTTY : Bool
  stdinData : String
  measure : Option Rect

/-- `readInput(opts)` from src/scripts/render-snippet.js lines 62-77:
`--input` file first, then the first positional file, then standard
input; a TTY standard input with no other source throws the no-input
error. -/
def readInput (env : Env) : Except ErrorKind String :=
  match env.inputOpt with
  | some content => Except.ok content
  | none =>
    match env.positional with
    | content :: _ => Except.ok content
    | [] =>
      if env.stdinIsTTY then Except.error ErrorKind.inputFailure
      else Except.ok env.stdinData

/-- The crop rectangle computed in `page.evaluate` (src/scripts/render-snippet.js
lines 299-309): origin coordinates by `Math.floor`, extent by `Math.ceil`. -/
def clipOf (r : Rect) : Clip :=
  { x := ⌊r.x⌋, y := ⌊r.y⌋, width := ⌈r.width⌉, height := ⌈r.height⌉ }

/-- Modelled from the spec: the crop rectangle with its origin rounded
down and its extent rounded up to whole pixels. -/
def specCropRectangle (r : Rect) : Clip :=
  { x := ⌊r.x⌋, y := ⌊r.y⌋, width := ⌈r.width⌉, height := ⌈r.height⌉ }

/-- The scoped browser-session state threaded through the `try`/`finally`
region of `main` (src/scripts/render-snippet.js lines 274-319). -/
structure Session where
  browserOpen : Bool
  dirCreated : Bool
  screenshot : Option Clip
deriving DecidableEq

/-- The `try` block body after the document has loaded
(src/scripts/render-snippet.js lines 299-316): measure the frame; a
missing frame throws the render failure; otherwise create the output
directory, then capture the clip rectangle. -/
def tryBody (env : Env) (s : Session) : Session × Except ErrorKind Unit :=
  match env.measure with
  | none => (s, Except.error ErrorKind.renderFailure)
  | some rect =>
    let s₁ := { s with dirCreated := true }
    let s₂ := { s₁ with screenshot := some (clipOf rect) }
    (s₂, Except.ok ())

/-- The `try`/`finally` region (src/scripts/render-snippet.js lines
274-319): the browser is launched, the body runs, and the `finally`
clause closes the browser on every exit path before the result (value or
error) propagates. -/
def withBrowser (env : Env) : Session × Except ErrorKind Unit :=
  let s₀ : Session := { browserOpen := true, dirCreated := false, screenshot := none }
  let (s₁, r) := tryBody env s₀
  ({ s₁ with browserOpen := false }, r)

/-- The observable outcome of one whole `main().catch(...)` invocation
(src/scripts/render-snippet.js lines 232-327). -/
structure FinalState where
  exitCode : ℕ
  browserLaunched : Bool
  browserClosed : Bool
  dirCreated : Bool
  screenshot : Option Clip
  errorKind : Option ErrorKind
deriving DecidableEq

/-- One run of `main().catch(...)`: read the input (before any browser or
filesystem write); on failure the catch handler exits with status 1; on
success the browser region runs and its error, if any, reaches the same
catch handler. -/
def mainRun (env : Env) : FinalState :=
  match readInput env with
  | Except.error e =>
    { exitCode := 1, browserLaunched := false, browserClosed := false,
      dirCreated := false, screenshot := none, errorKind := some e }
  | Except.ok _ =>
    let (s, r) := withBrowser env
    match r with
    | Except.error e =>
      { exitCode := 1, browserLaunched := true, browserClosed := !s.browserOpen,
        dirCreated := s.dirCreated, screenshot := s.screenshot, errorKind := some e }
    | Except.ok _ =>
      { exitCode := 0, browserLaunched := true, browserClosed := !s.browserOpen,
        dirCreated := s.dirCreated, screenshot := s.screenshot, errorKind := none }

/-- The screenshot options of the standalone capture
(src/scripts/render-snippet.js line 316): `page.screenshot(\x7b path:
output, clip \x7d)` — the clip rectangle is passed, the other flags keep
their puppeteer defaults. -/
def screenshotOptions (c : Clip) : ScreenshotOptions :=
  { clip := some c, fullPage := false, omitBackground := false }

end RenderScript

theorem estimateFor_eq (L F p : ℚ) :
    RenderScript.estimateFor L F p = ⌈L * (F * 1.6) + 24 * 2 + 40 + p * 2 + 40⌉ := rfl

/-- C5: for every code string and options, the canvas height estimate
computed at the call site of `estimateHeight` equals the spec's
`LayoutEstimate` formula: `lineHeightPx = fontSizePx * 1.6`,
`codeBlockHeightPx = lineCount * lineHeightPx + 2 * innerPadding` with
`innerPadding = 24`, and `canvasHeightPx = codeBlockHeightPx +
chromeBarHeightPx (40) + 2 * canvasPadding + fixedMargin`, rounded up to
an integer. -/
theorem estimatedHeight_matches_spec (code : String) (fontSize padding : ℚ) :
    RenderScript.estimatedHeight code fontSize padding =
      RenderScript.specCanvasHeightPx (RenderScript.lineCount code) fontSize padding := by
  rw [RenderScript.estimatedHeight, estimateFor_eq, RenderScript.specCanvasHeightPx]
  congr 1
  ring

/-- C6: the canvas height estimate is monotonically non-decreasing in the
number of lines (at equal font size) and in the font size (at equal line
count), all parameters non-negative. -/
theorem estimate_monotone (L₁ L₂ F₁ F₂ L F p : ℚ)
    (hL : 0 ≤ L) (hF : 0 ≤ F) (hp : 0 ≤ p)
    (hLle : L₁ ≤ L₂) (hFle : F₁ ≤ F₂) :
    RenderScript.estimateFor L₁ F p ≤ RenderScript.estimateFor L₂ F p ∧
    RenderScript.estimateFor L F₁ p ≤ RenderScript.estimateFor L F₂ p := by
  constructor
  · rw [estimateFor_eq, estimateFor_eq]
    apply Int.ceil_le_ceil
    have h16 : (0 : ℚ) ≤ F * 1.6 := by nlinarith
    nlinarith [mul_le_mul_of_nonneg_right hLle h16]
  · rw [estimateFor_eq, estimateFor_eq]
    apply Int.ceil_le_ceil
    have hstep : F₁ * 1.6 ≤ F₂ * 1.6 := by nlinarith
    nlinarith [mul_le_mul_of_nonneg_left hstep hL]

theorem C6_witness :
    RenderScript.estimateFor 2 16 64 ≤ RenderScript.estimateFor 5 16 64 ∧
    RenderScript.estimateFor 3 12 64 ≤ RenderScript.estimateFor 3 16 64 :=
  estimate_monotone 2 5 12 16 3 16 64 (by norm_num) (by norm_num) (by norm_num)
    (by norm_num) (by norm_num)

/-- C9: a numeric option value that does not convert to a finite number
never propagates: the result of `toNumber` is either the supplied finite
value or the fallback, and at each call-site default (`width` 960,
`padding` 64, `scale` 2, font size 16) a malformed value yields that
built-in default.  The result lives in `ℚ`, so it is never `NaN` nor
infinite, and the function is total (never raises). -/
theorem toNumber_malformed_defaults (v : Option JsNumber) (fb : ℚ) :
    (RenderScript.toNumber v fb = fb ∨
      ∃ q, v = some (JsNumber.finite q) ∧ RenderScript.toNumber v fb = q) ∧
    RenderScript.toNumber (some JsNumber.nan) RenderScript.DEFAULTS.width =
      RenderScript.DEFAULTS.width ∧
    RenderScript.toNumber (some JsNumber.posInf) RenderScript.DEFAULTS.padding =
      RenderScript.DEFAULTS.padding ∧
    RenderScript.toNumber (some JsNumber.nan) RenderScript.DEFAULTS.scale =
      RenderScript.DEFAULTS.scale ∧
    RenderScript.toNumber (some JsNumber.negInf) 16 = 16 ∧
    RenderScript.toNumber none fb = fb := by
  refine ⟨?_, rfl, rfl, rfl, rfl, rfl⟩
  cases v with
  | none => exact Or.inl rfl
  | some j =>
    cases j with
    | finite q => exact Or.inr ⟨q, rfl, rfl⟩
    | nan => exact Or.inl rfl
    | posInf => exact Or.inl rfl
    | negInf => exact Or.inl rfl

/-- C10: the line count used for sizing is the number of newline
characters plus one; the empty string counts as one line and its height
estimate is positive; appending a trailing newline adds exactly one line
and (at any font size of at least one pixel) strictly enlarges the
estimate. -/
theorem lineCount_and_estimate (s : String) :
    RenderScript.lineCount "" = 1 ∧
    RenderScript.lineCount s = s.data.count '\n' + 1 ∧
    RenderScript.lineCount (s ++ "\n") = RenderScript.lineCount s + 1 ∧
    (∀ F p : ℚ, 0 ≤ F → 0 ≤ p → 0 < RenderScript.estimatedHeight "" F p) ∧
    (∀ F p : ℚ, 1 ≤ F → 0 ≤ p →
      RenderScript.estimatedHeight s F p < RenderScript.estimatedHeight (s ++ "\n") F p) := by
  have hdata : (s ++ "\n").data = s.data ++ ['\n'] := by
    simp [String.data_append]
  have hcount : RenderScript.lineCount (s ++ "\n") = RenderScript.lineCount s + 1 := by
    rw [RenderScript.lineCount, RenderScript.lineCount, RenderScript.splitNl_length,
      RenderScript.splitNl_length, hdata]
    simp [List.count_append]
  refine ⟨rfl, ?_, hcount, ?_, ?_⟩
  · rw [RenderScript.lineCount, RenderScript.splitNl_length]
  · intro F p hF hp
    rw [RenderScript.estimatedHeight, estimateFor_eq]
    rw [Int.ceil_pos]
    have h1 : RenderScript.lineCount "" = 1 := rfl
    rw [h1]
    push_cast
    nlinarith
  · intro F p hF hp
    rw [RenderScript.estimatedHeight, RenderScript.estimatedHeight, hcount,
      estimateFor_eq, estimateFor_eq]
    push_cast
    set n : ℚ := (RenderScript.lineCount s : ℚ) with hn
    have key : (n + 1) * (F * 1.6) + 24 * 2 + 40 + p * 2 + 40 =
        (n * (F * 1.6) + 24 * 2 + 40 + p * 2 + 40) + F * 1.6 := by ring
    rw [key]
    have h2 : ⌈(n * (F * 1.6) + 24 * 2 + 40 + p * 2 + 40) + 1⌉ ≤
        ⌈(n * (F * 1.6) + 24 * 2 + 40 + p * 2 + 40) + F * 1.6⌉ := by
      apply Int.ceil_le_ceil
      nlinarith
    have h1 := Int.ceil_add_one (n * (F * 1.6) + 24 * 2 + 40 + p * 2 + 40)
    omega

theorem C10_witness :
    RenderScript.lineCount "" = 1 ∧
    RenderScript.lineCount "a\nb" = 2 ∧
    RenderScript.lineCount ("a\nb" ++ "\n") = 3 ∧
    0 < RenderScript.estimatedHeight "" 16 64 ∧
    RenderScript.estimatedHeight "a\nb" 16 64 <
      RenderScript.estimatedHeight ("a\nb" ++ "\n") 16 64 := by
  obtain ⟨h1, h2, h3, h4, h5⟩ := lineCount_and_estimate "a\nb"
  refine ⟨h1, by decide, ?_, h4 16 64 (by norm_num) (by norm_num),
    h5 16 64 (by norm_num) (by norm_num)⟩
  rw [h3]; decide

/-- C8: after load, the crop rectangle passed to capture is the measured
bounding rectangle of the frame with its origin rounded down and its
extent rounded up to whole pixels. -/
theorem crop_rectangle_rounding (env : RenderScript.Env) (rect : Rect)
    (hin : ∃ c, RenderScript.readInput env = Except.ok c)
    (hm : env.measure = some rect) :
    (RenderScript.mainRun env).screenshot = some (RenderScript.specCropRectangle rect) ∧
    RenderScript.clipOf rect = RenderScript.specCropRectangle rect ∧
    RenderScript.clipOf rect =
      { x := ⌊rect.x⌋, y := ⌊rect.y⌋, width := ⌈rect.width⌉, height := ⌈rect.height⌉ } := by
  obtain ⟨c, hc⟩ := hin
  refine ⟨?_, rfl, rfl⟩
  simp [RenderScript.mainRun, hc, RenderScript.withBrowser, RenderScript.tryBody, hm,
    RenderScript.clipOf, RenderScript.specCropRectangle]

theorem C8_witness :
    (RenderScript.mainRun
        { inputOpt := some "x", positional := [], stdinIsTTY := true, stdinData := "",
          measure := some { x := 5/2, y := -7/3, width := 10/3, height := 8 } }).screenshot =
      some { x := 2, y := -3, width := 4, height := 8 } := by
  have h := crop_rectangle_rounding
    { inputOpt := some "x", positional := [], stdinIsTTY := true, stdinData := "",
      measure := some { x := 5/2, y := -7/3, width := 10/3, height := 8 } }
    { x := 5/2, y := -7/3, width := 10/3, height := 8 } ⟨"x", rfl⟩ rfl
  rw [h.1]
  have hx : ⌊(5/2 : ℚ)⌋ = 2 := by norm_num
  have hy : ⌊(-7/3 : ℚ)⌋ = -3 := by norm_num
  have hw : ⌈(10/3 : ℚ)⌉ = 4 := by rw [Int.ceil_eq_iff] <;> norm_num
  have hh : ⌈(8 : ℚ)⌉ = 8 := by norm_num
  simp [RenderScript.specCropRectangle, hx, hy, hw, hh]

/-- C4: if the frame region cannot be located after load, the run fails
with the render failure (not any other kind), the process exits with a
non-zero status, no output directory or file is produced by that path,
and the browser session is released by the `finally` clause before the
error propagates. -/
theorem render_failure_releases_browser (env : RenderScript.Env)
    (hin : ∃ c, RenderScript.readInput env = Except.ok c)
    (hm : env.measure = none) :
    (RenderScript.withBrowser env).2 = Except.error RenderScript.ErrorKind.renderFailure ∧
    (RenderScript.withBrowser env).1.browserOpen = false ∧
    (RenderScript.withBrowser env).1.dirCreated = false ∧
    (RenderScript.withBrowser env).1.screenshot = none ∧
    (RenderScript.mainRun env).exitCode = 1 ∧
    (RenderScript.mainRun env).errorKind = some RenderScript.ErrorKind.renderFailure ∧
    (RenderScript.mainRun env).browserClosed = true := by
  obtain ⟨c, hc⟩ := hin
  refine ⟨?_, ?_, ?_, ?_, ?_, ?_, ?_⟩ <;>
    simp [RenderScript.withBrowser, RenderScript.tryBody, hm, RenderScript.mainRun, hc]

theorem C4_witness :
    (RenderScript.withBrowser
        { inputOpt := some "x", positional := [], stdinIsTTY := true, stdinData := "",
          measure := none }).2 = Except.error RenderScript.ErrorKind.renderFailure ∧
    (RenderScript.withBrowser
        { inputOpt := some "x", positional := [], stdinIsTTY := true, stdinData := "",
          measure := none }).1.browserOpen = false ∧
    (RenderScript.mainRun
        { inputOpt := some "x", positional := [], stdinIsTTY := true, stdinData := "",
          measure := none }).exitCode = 1 := by
  have h := render_failure_releases_browser
    { inputOpt := some "x", positional := [], stdinIsTTY := true, stdinData := "",
      measure := none } ⟨"x", rfl⟩ rfl
  exact ⟨h.1, h.2.1, h.2.2.2.2.1⟩

/-- C7: with no `--input` flag, no positional file and a TTY standard
input, the run fails with the input failure, exits with status 1, the
browser is never launched, and neither the output directory nor an output
file is created. -/
theorem no_input_source_input_failure (env : RenderScript.Env)
    (h1 : env.inputOpt = none) (h2 : env.positional = []) (h3 : env.stdinIsTTY = true) :
    RenderScript.readInput env = Except.error RenderScript.ErrorKind.inputFailure ∧
    RenderScript.mainRun env =
      { exitCode := 1, browserLaunched := false, browserClosed := false,
        dirCreated := false, screenshot := none,
        errorKind := some RenderScript.ErrorKind.inputFailure } := by
  have hr : RenderScript.readInput env = Except.error RenderScript.ErrorKind.inputFailure := by
    simp [RenderScript.readInput, h1, h2, h3]
  exact ⟨hr, by simp [RenderScript.mainRun, hr]⟩

theorem C7_witness :
    RenderScript.readInput
        { inputOpt := none, positional := [], stdinIsTTY := true, stdinData := "",
          measure := none } =
      Except.error RenderScript.ErrorKind.inputFailure ∧
    RenderScript.mainRun
        { inputOpt := none, positional := [], stdinIsTTY := true, stdinData := "",
          measure := none } =
      { exitCode := 1, browserLaunched := false, browserClosed := false,
        dirCreated := false, screenshot := none,
        errorKind := some RenderScript.ErrorKind.inputFailure } :=
  no_input_source_input_failure
    { inputOpt := none, positional := [], stdinIsTTY := true, stdinData := "",
      measure := none } rfl rfl rfl

/-- C3 counterexample: with supported set `["javascript"]`, requesting the
alias `"js"` resolves through alias expansion to the supported identifier
`"javascript"` — by the claim's own case analysis this is a match, not a
fallback — yet the warning guard of the source fires, because it compares
the resolved identifier against the literally requested string.  So the
warning is not emitted "exactly when resolution falls back". -/
theorem alias_match_still_warns :
    RenderScript.resolveLanguage ["javascript"] "js" "javascript" = "javascript" ∧
    RenderScript.specLanguageFellBack ["javascript"] "js" = false ∧
    RenderScript.languageWarning "js"
      (RenderScript.resolveLanguage ["javascript"] "js" "javascript") = true := by
  decide

/-- C3 (amended): identifier resolution uses the alias-expanded requested
identifier when supported, else the configured fallback when supported,
else the first available identifier (when non-empty); it is a total
function, so rendering never fails on a mismatched identifier; and the
non-fatal warning is emitted exactly when the resolved identifier differs
from the literally requested (non-empty) one — which includes successful
alias expansions, not only fallbacks. -/
theorem resolution_and_warning (available : List String) (requested fallback x hd : String)
    (tl : List String) :
    (available.contains (RenderScript.normalized requested) = true →
      RenderScript.resolveLanguage available requested fallback =
        RenderScript.normalized requested) ∧
    (available.contains (RenderScript.normalized requested) = false →
      available.contains fallback = true →
      RenderScript.resolveLanguage available requested fallback = fallback) ∧
    (available.contains (RenderScript.normalized requested) = false →
      available.contains fallback = false → available = hd :: tl → hd ≠ "" →
      RenderScript.resolveLanguage available requested fallback = hd) ∧
    (available.contains requested = true →
      RenderScript.resolveTheme available requested fallback = requested) ∧
    (available.contains requested = false → available.contains fallback = true →
      RenderScript.resolveTheme available requested fallback = fallback) ∧
    (available.contains requested = false → available.contains fallback = false →
      available = hd :: tl → hd ≠ "" →
      RenderScript.resolveTheme available requested fallback = hd) ∧
    (RenderScript.languageWarning requested x = true ↔ requested ≠ "" ∧ x ≠ requested) ∧
    (RenderScript.themeWarning requested x = true ↔ requested ≠ "" ∧ x ≠ requested) := by
  refine ⟨?_, ?_, ?_, ?_, ?_, ?_, ?_, ?_⟩
  · intro h
    simp at h
    simp [RenderScript.resolveLanguage, h]
  · intro h1 h2
    simp at h1 h2
    simp [RenderScript.resolveLanguage, h1, h2]
  · intro h1 h2 h3 h4
    subst h3
    simp at h1 h2
    simp [RenderScript.resolveLanguage, h1, h2, h4]
  · intro h
    simp at h
    simp [RenderScript.resolveTheme, h]
  · intro h1 h2
    simp at h1 h2
    simp [RenderScript.resolveTheme, h1, h2]
  · intro h1 h2 h3 h4
    subst h3
    simp at h1 h2
    simp [RenderScript.resolveTheme, h1, h2, h4]
  · simp [RenderScript.languageWarning, Bool.and_eq_true, bne_iff_ne, ne_eq]
  · simp [RenderScript.themeWarning, Bool.and_eq_true, bne_iff_ne, ne_eq]

theorem C3_amended_witness :
    RenderScript.resolveLanguage ["markdown"] "zz" "javascript" = "markdown" ∧
    (RenderScript.languageWarning "zz" "markdown" = true ↔
      ("zz" : String) ≠ "" ∧ ("markdown" : String) ≠ "zz") := by
  have h := resolution_and_warning ["markdown"] "zz" "javascript" "markdown" "markdown" []
  exact ⟨h.2.2.1 (by decide) (by decide) rfl (by decide), h.2.2.2.2.2.2.1⟩

/-- C2 counterexample: the video-overlay call site passes no clip
rectangle to the capture step at all — the screenshot options of
`renderSnippet` in src/main.js are `fullPage: false, omitBackground:
true` with `clip` absent, so the captured region is the full 1080 by 1920
viewport, whose width differs from the frame's own width (1080 - 2*80 =
920): the emitted overlay image does keep the surrounding canvas padding. -/
theorem overlay_capture_not_frame_rect :
    MainApp.rendererScreenshotOptions.clip = none ∧
    capturedRegion MainApp.DEFAULTS.width MainApp.DEFAULTS.height
        MainApp.rendererScreenshotOptions =
      { x := 0, y := 0, width := 1080, height := 1920 } ∧
    (capturedRegion MainApp.DEFAULTS.width MainApp.DEFAULTS.height
        MainApp.rendererScreenshotOptions).width ≠
      MainApp.DEFAULTS.width - MainApp.DEFAULTS.padding * 2 := by
  decide

/-- C2 (amended): the standalone call site captures exactly the clip
rectangle it passes (the measured frame rectangle), so its emitted image
has no surrounding canvas padding; the video-overlay call site, by
contrast, passes no clip and captures the full viewport with the
background omitted — the two call sites are not configuration variants of
one capture contract. -/
theorem capture_clip_variants (c : Clip) (vw vh : ℤ) :
    capturedRegion vw vh (RenderScript.screenshotOptions c) = c ∧
    (RenderScript.screenshotOptions c).clip = some c ∧
    MainApp.rendererScreenshotOptions.clip = none ∧
    capturedRegion vw vh MainApp.rendererScreenshotOptions =
      { x := 0, y := 0, width := vw, height := vh } ∧
    MainApp.rendererScreenshotOptions.omitBackground = true :=
  ⟨rfl, rfl, rfl, rfl, rfl⟩

/-- C1 counterexample: in the video-overlay variant the dynamic heading
text (the difficulty value) is embedded verbatim: with difficulty `"<"`
the composed document contains the raw `<` where the heading text goes,
and it differs from the document in which that occurrence had been
escaped to its entity. -/
theorem overlay_difficulty_not_escaped :
    MainApp.buildHtml "<pre>x</pre>" 1080 1920 80 "bg" "mono" 24 "<" =
      MainApp.overlayBefore 1080 1920 80 "bg" "mono" 24 ++ "<" ++
        MainApp.overlayAfter "<pre>x</pre>" ∧
    MainApp.buildHtml "<pre>x</pre>" 1080 1920 80 "bg" "mono" 24 "<" ≠
      MainApp.overlayBefore 1080 1920 80 "bg" "mono" 24 ++ RenderScript.escapeHtml "<" ++
        MainApp.overlayAfter "<pre>x</pre>" := by
  refine ⟨rfl, ?_⟩
  intro h
  have he : RenderScript.escapeHtml "<" = "&lt;" := by decide
  rw [he] at h
  have h0 : MainApp.buildHtml "<pre>x</pre>" 1080 1920 80 "bg" "mono" 24 "<" =
      MainApp.overlayBefore 1080 1920 80 "bg" "mono" 24 ++ "<" ++
        MainApp.overlayAfter "<pre>x</pre>" := rfl
  rw [h0] at h
  have hlen := congrArg String.length h
  simp only [String.length_append] at hlen
  have h1 : ("<" : String).length = 1 := rfl
  have h4 : ("&lt;" : String).length = 4 := rfl
  rw [h1, h4] at hlen
  omega

/-- C1 (amended): in the standalone variant every occurrence of each of
the five markup-special characters in the supplied title and theme name
is escaped to its entity before insertion (character by character), and
the highlighter's pre-formatted code markup is embedded verbatim; in the
video-overlay variant the dynamic heading text (the difficulty value) is
embedded verbatim, with no escaping. -/
theorem escaping_per_variant (codeHtml background font title themeName difficulty co bg fo : String)
    (width padding fontSize wd ht pd fs : ℤ) :
    RenderScript.buildHtml codeHtml width padding background font title themeName fontSize =
      RenderScript.partA ++ font ++ RenderScript.partB ++ toString padding ++
        RenderScript.partC ++ background ++ RenderScript.partD ++ toString width ++
        RenderScript.partE ++ toString fontSize ++ RenderScript.partF ++
        (⟨RenderScript.escapeChars title.data⟩ : String) ++ RenderScript.partG ++
        (⟨RenderScript.escapeChars themeName.data⟩ : String) ++ RenderScript.partH ++
        codeHtml ++ RenderScript.partI ∧
    MainApp.buildHtml co wd ht pd bg fo fs difficulty =
      MainApp.overlayBefore wd ht pd bg fo fs ++ difficulty ++ MainApp.overlayAfter co := by
  constructor
  · simp only [RenderScript.buildHtml, RenderScript.escapeHtml_eq_escapeChars]
  · rfl
